import Mathlib

/-!
Verification of the hand-gesture control pipeline.

The development shallowly embeds the per-frame gesture logic of
`src/components/HandTracker.tsx` (function `predictLoop`) and, where the
claims reference it, the earlier revision `src/unnamed/part_000` of the
same component.  JavaScript numbers are modelled as real numbers; the
boolean finger-state helpers and the gesture classifier follow the source
line by line.
-/

namespace HandPipeline

/-- A single hand landmark: normalized image-space coordinates, as produced
by the landmark source (x, y in [0,1] nominally, z relative depth). -/
structure Landmark where
  x : ℝ
  y : ℝ
  z : ℝ

/-- A detected hand: exactly 21 landmarks, indexed anatomically
(0 = wrist, 4/8/12/16/20 = finger tips, 2/5/9/13/17 = MCP joints). -/
def Hand : Type := Fin 21 → Landmark

/-- The closed gesture enumeration from `types.ts`
(`'OPEN' | 'CLOSED' | 'POINTING' | 'VICTORY' | 'NEUTRAL'`). -/
inductive Gesture where
  | OPEN
  | CLOSED
  | POINTING
  | VICTORY
  | NEUTRAL
  deriving DecidableEq, Repr

/-- The per-finger extension flags computed in `predictLoop`
(`thumbExt`, `indexExt`, `middleExt`, `ringExt`, `pinkyExt`). -/
structure Features where
  thumbExt : Bool
  indexExt : Bool
  middleExt : Bool
  ringExt : Bool
  pinkyExt : Bool
  deriving DecidableEq

/-- `extendedCount` of `predictLoop`: the number of extended fingers,
`(thumbExt ? 1 : 0) + (indexExt ? 1 : 0) + ...`. -/
def extendedCount (f : Features) : ℕ :=
  (if f.thumbExt then 1 else 0) + (if f.indexExt then 1 else 0) +
  (if f.middleExt then 1 else 0) + (if f.ringExt then 1 else 0) +
  (if f.pinkyExt then 1 else 0)

/-- The gesture decision chain of `src/components/HandTracker.tsx`
(lines 194-206): OPEN on 5 or 4 extended fingers, else CLOSED on 0 or 1,
else VICTORY, else POINTING, defaulting to NEUTRAL. -/
def classifyGesture (f : Features) : Gesture :=
  if extendedCount f = 5 ∨ extendedCount f = 4 then Gesture.OPEN
  else if extendedCount f = 0 ∨ extendedCount f = 1 then Gesture.CLOSED
  else if f.indexExt ∧ f.middleExt ∧ ¬f.ringExt ∧ ¬f.pinkyExt then Gesture.VICTORY
  else if f.indexExt ∧ ¬f.middleExt ∧ ¬f.ringExt ∧ ¬f.pinkyExt then Gesture.POINTING
  else Gesture.NEUTRAL

/-- The gesture decision chain of the earlier revision
`src/unnamed/part_000` (lines 177-196): VICTORY is checked first, OPEN
requires all 5 fingers, CLOSED requires 0, POINTING fires on a lone index
finger or on the index+thumb "L" shape. -/
def classifyGestureV0 (f : Features) : Gesture :=
  if f.indexExt ∧ f.middleExt ∧ ¬f.ringExt ∧ ¬f.pinkyExt then Gesture.VICTORY
  else if extendedCount f = 5 then Gesture.OPEN
  else if extendedCount f = 0 then Gesture.CLOSED
  else if extendedCount f = 1 ∧ f.indexExt then Gesture.POINTING
  else if extendedCount f = 2 ∧ f.indexExt ∧ f.thumbExt then Gesture.POINTING
  else Gesture.NEUTRAL

/-- The planar Euclidean distance used throughout `predictLoop`:
`Math.sqrt(Math.pow(a.x - b.x, 2) + Math.pow(a.y - b.y, 2))`. -/
noncomputable def dist2D (p q : Landmark) : ℝ :=
  Real.sqrt ((p.x - q.x) ^ 2 + (p.y - q.y) ^ 2)

/-- `isFingerExtended` of `src/components/HandTracker.tsx` (line 182):
the tip is further from the wrist than 1.1 times the MCP joint's distance
from the wrist. -/
noncomputable def isFingerExtended (L : Hand) (tipIdx mcpIdx : Fin 21) : Bool :=
  decide (dist2D (L tipIdx) (L 0) > dist2D (L mcpIdx) (L 0) * 1.1)

/-- The feature vector extracted by `predictLoop`:
`isFingerExtended(4,2)`, `(8,5)`, `(12,9)`, `(16,13)`, `(20,17)`. -/
noncomputable def featuresOf (L : Hand) : Features :=
  ⟨isFingerExtended L 4 2, isFingerExtended L 8 5, isFingerExtended L 12 9,
   isFingerExtended L 16 13, isFingerExtended L 20 17⟩

/-- The classified gesture of a detected hand in
`src/components/HandTracker.tsx`. -/
noncomputable def gestureOf (L : Hand) : Gesture :=
  classifyGesture (featuresOf L)

/-- Sum of the four non-thumb fingertip distances from the wrist
(`tips = [8, 12, 16, 20]`, accumulated into `avgTipDist`). -/
noncomputable def tipDistSum (L : Hand) : ℝ :=
  dist2D (L 8) (L 0) + dist2D (L 12) (L 0) +
  dist2D (L 16) (L 0) + dist2D (L 20) (L 0)

/-- `mcpDist` of `predictLoop`: the wrist-to-middle-MCP hand-size
reference distance (landmark 9 to landmark 0). -/
noncomputable def mcpDist (L : Hand) : ℝ :=
  dist2D (L 9) (L 0)

/-- The arithmetic core of the openness computation in
`src/components/HandTracker.tsx` (line 232):
`Math.min(Math.max((avgTipDist / 4) / (mcpDist * 2.5), 0), 1)`,
abstracted over the accumulated tip-distance sum `s` and `mcpDist` `m`. -/
noncomputable def opennessFromDists (s m : ℝ) : ℝ :=
  min (max ((s / 4) / (m * 2.5)) 0) 1

/-- `opennessRatio` of `src/components/HandTracker.tsx`: the clamped,
hand-size-normalized openness of a detected hand. -/
noncomputable def openness (L : Hand) : ℝ :=
  opennessFromDists (tipDistSum L) (mcpDist L)

/-- The persistent mutable cells of the component: `lastVideoTime`,
`lastRotationRef`, `lastPitchRef` (initialised to -1, 0, 0). -/
structure SmootherState where
  lastVideoTime : ℝ
  lastRotation : ℝ
  lastPitch : ℝ

/-- The published `HandGestureState` record of `types.ts`. -/
structure ControlState where
  isHandDetected : Bool
  gesture : Gesture
  rotation : ℝ
  pitch : ℝ
  pinchDistance : ℝ

/-- Outcome of one `landmarker.detectForVideo` call: the call threw, it
returned no landmarks, or it returned one hand. -/
inductive DetectResult where
  | err : DetectResult
  | noHand : DetectResult
  | hand : Hand → DetectResult

/-- One video frame presented to the prediction loop: its presentation
timestamp and what detection would produce on it. -/
structure Frame where
  currentTime : ℝ
  result : DetectResult

/-- The body of the `try` block of `predictLoop` after detection: on a
caught error nothing is published and the refs are untouched; on "no
hand" the last committed values are republished with NEUTRAL/0.5; on a
hand the gesture is classified, yaw/pitch are gate-updated and the full
state is published. -/
noncomputable def processDetection (s : SmootherState) (r : DetectResult) :
    SmootherState × Option ControlState :=
  match r with
  | DetectResult.err => (s, none)
  | DetectResult.noHand =>
      (s, some ⟨false, Gesture.NEUTRAL, s.lastRotation, s.lastPitch, 0.5⟩)
  | DetectResult.hand L =>
      let g := gestureOf L
      let rotation := if g = Gesture.OPEN then (1 - (L 0).x) * 2 - 1 else s.lastRotation
      let pitch := if g = Gesture.POINTING then ((L 8).y - 0.5) * 2 else s.lastPitch
      ({ s with lastRotation := rotation, lastPitch := pitch },
       some ⟨true, g, rotation, pitch, openness L⟩)

/-- One pass of `predictLoop` over a presented frame (the active case:
video playing, model ready).  If the video's `currentTime` equals the
stored `lastVideoTime`, inference is skipped entirely; otherwise the
timestamp is committed, detection runs (possibly failing), and the result
is processed.  Returns the new persistent state, the published control
state if any, and whether the landmark source was invoked. -/
noncomputable def cycle (s : SmootherState) (f : Frame) :
    SmootherState × Option ControlState × Bool :=
  if f.currentTime = s.lastVideoTime then (s, none, false)
  else
    let s1 : SmootherState := { s with lastVideoTime := f.currentTime }
    let p := processDetection s1 f.result
    (p.1, p.2, true)

/-- The scheduler run over a list of frames: every frame is attempted
(per-frame failures are caught inside `cycle`), threading the persistent
state.  Returns the final state and the number of frames attempted. -/
noncomputable def runFrames (s : SmootherState) : List Frame → SmootherState × ℕ
  | [] => (s, 0)
  | f :: fs =>
      let c := cycle s f
      let r := runFrames c.1 fs
      (r.1, r.2 + 1)

/-- A frame on which the yaw-update gate of `predictLoop` fires: a hand
was detected and classified OPEN. -/
noncomputable def firesYaw (f : Frame) : Prop :=
  ∃ L, f.result = DetectResult.hand L ∧ gestureOf L = Gesture.OPEN

/-- A frame on which the pitch-update gate of `predictLoop` fires: a hand
was detected and classified POINTING. -/
noncomputable def firesPitch (f : Frame) : Prop :=
  ∃ L, f.result = DetectResult.hand L ∧ gestureOf L = Gesture.POINTING

/-! ### Evaluation helpers for concrete landmark sets -/

/-- On two landmarks with equal y-coordinate and ordered x-coordinates the
planar distance is the difference of the x-coordinates. -/
theorem dist2D_horiz (a b y z z' : ℝ) (h : b ≤ a) :
    dist2D ⟨a, y, z⟩ ⟨b, y, z'⟩ = a - b := by
  unfold dist2D
  simp only [sub_self]
  rw [show (0 : ℝ) ^ 2 = 0 by norm_num, add_zero, Real.sqrt_sq_eq_abs,
    abs_of_nonneg (by linarith)]

/-- A concrete closed-fist landmark set: all points on the line y = 0.5,
wrist at x = 0.1, middle MCP and middle tip at x = 0.14, every other
point at x = 0.3.  No finger is extended, yet the hand-size reference
distance is small, so the clamped openness saturates at 1. -/
def fistHand : Hand := fun i =>
  if i.val = 0 then ⟨0.1, 0.5, 0⟩
  else if i.val = 9 then ⟨0.14, 0.5, 0⟩
  else if i.val = 12 then ⟨0.14, 0.5, 0⟩
  else ⟨0.3, 0.5, 0⟩

/-- A concrete open-hand landmark set: all points on the line y = 0.5,
wrist at x = 0.3, every MCP joint at x = 0.4, every fingertip at
x = 0.55.  Every finger is extended. -/
def openHand : Hand := fun i =>
  if i.val = 0 then ⟨0.3, 0.5, 0⟩
  else if i.val = 2 ∨ i.val = 5 ∨ i.val = 9 ∨ i.val = 13 ∨ i.val = 17 then ⟨0.4, 0.5, 0⟩
  else if i.val = 4 ∨ i.val = 8 ∨ i.val = 12 ∨ i.val = 16 ∨ i.val = 20 then ⟨0.55, 0.5, 0⟩
  else ⟨0.3, 0.5, 0⟩

theorem fistHand_wrist : fistHand 0 = ⟨0.1, 0.5, 0⟩ := rfl

theorem fistHand_mid (i : Fin 21) (h : i.val = 9 ∨ i.val = 12) :
    fistHand i = ⟨0.14, 0.5, 0⟩ := by
  rcases h with h | h <;> · unfold fistHand; rw [h]; norm_num

theorem fistHand_far (i : Fin 21) (h : i.val ≠ 0 ∧ i.val ≠ 9 ∧ i.val ≠ 12) :
    fistHand i = ⟨0.3, 0.5, 0⟩ := by
  unfold fistHand
  rw [if_neg h.1, if_neg h.2.1, if_neg h.2.2]

theorem fist_no_finger (t m : Fin 21)
    (h : (t.val = 9 ∨ t.val = 12) ∧ (m.val = 9 ∨ m.val = 12) ∨
         (t.val ≠ 0 ∧ t.val ≠ 9 ∧ t.val ≠ 12) ∧ (m.val ≠ 0 ∧ m.val ≠ 9 ∧ m.val ≠ 12)) :
    isFingerExtended fistHand t m = false := by
  unfold isFingerExtended
  rcases h with ⟨h1, h2⟩ | ⟨h1, h2⟩
  · rw [fistHand_mid t h1, fistHand_mid m h2, fistHand_wrist,
      dist2D_horiz _ _ _ _ _ (by norm_num)]
    exact decide_eq_false (by norm_num)
  · rw [fistHand_far t h1, fistHand_far m h2, fistHand_wrist,
      dist2D_horiz _ _ _ _ _ (by norm_num)]
    exact decide_eq_false (by norm_num)

theorem fist_features : featuresOf fistHand = ⟨false, false, false, false, false⟩ := by
  unfold featuresOf
  rw [fist_no_finger 4 2 (by decide), fist_no_finger 8 5 (by decide),
    fist_no_finger 12 9 (by decide), fist_no_finger 16 13 (by decide),
    fist_no_finger 20 17 (by decide)]

theorem fist_gesture : gestureOf fistHand = Gesture.CLOSED := by
  rw [gestureOf, fist_features]; rfl

theorem fist_openness : openness fistHand = 1 := by
  rw [openness, tipDistSum, mcpDist,
    fistHand_far 8 (by decide), fistHand_mid 12 (by decide),
    fistHand_far 16 (by decide), fistHand_far 20 (by decide),
    fistHand_mid 9 (by decide), fistHand_wrist,
    dist2D_horiz _ _ _ _ _ (by norm_num), dist2D_horiz _ _ _ _ _ (by norm_num),
    opennessFromDists]
  rw [max_eq_left (by norm_num), min_eq_right (by norm_num)]

theorem openHand_wrist : openHand 0 = ⟨0.3, 0.5, 0⟩ := rfl

theorem openHand_mcp (i : Fin 21)
    (h : i.val = 2 ∨ i.val = 5 ∨ i.val = 9 ∨ i.val = 13 ∨ i.val = 17) :
    openHand i = ⟨0.4, 0.5, 0⟩ := by
  unfold openHand
  rw [if_neg (by omega), if_pos h]

theorem openHand_tip (i : Fin 21)
    (h : i.val = 4 ∨ i.val = 8 ∨ i.val = 12 ∨ i.val = 16 ∨ i.val = 20) :
    openHand i = ⟨0.55, 0.5, 0⟩ := by
  unfold openHand
  rw [if_neg (by omega), if_neg (by omega), if_pos h]

theorem open_finger (t m : Fin 21)
    (ht : t.val = 4 ∨ t.val = 8 ∨ t.val = 12 ∨ t.val = 16 ∨ t.val = 20)
    (hm : m.val = 2 ∨ m.val = 5 ∨ m.val = 9 ∨ m.val = 13 ∨ m.val = 17) :
    isFingerExtended openHand t m = true := by
  unfold isFingerExtended
  rw [openHand_tip t ht, openHand_mcp m hm, openHand_wrist,
    dist2D_horiz _ _ _ _ _ (by norm_num), dist2D_horiz _ _ _ _ _ (by norm_num)]
  exact decide_eq_true (by norm_num)

theorem open_features : featuresOf openHand = ⟨true, true, true, true, true⟩ := by
  unfold featuresOf
  rw [open_finger 4 2 (by decide) (by decide), open_finger 8 5 (by decide) (by decide),
    open_finger 12 9 (by decide) (by decide), open_finger 16 13 (by decide) (by decide),
    open_finger 20 17 (by decide) (by decide)]

theorem open_gesture : gestureOf openHand = Gesture.OPEN := by
  rw [gestureOf, open_features]; rfl

/-! ### Invariants of the frame cycle -/

/-- After any cycle the stored `lastVideoTime` equals the frame's
presentation timestamp (committed on processing, already equal on skip). -/
theorem cycle_lastVideoTime (s : SmootherState) (f : Frame) :
    (cycle s f).1.lastVideoTime = f.currentTime := by
  unfold cycle
  by_cases ht : f.currentTime = s.lastVideoTime
  · simp [ht]
  · cases hr : f.result <;> simp [ht, hr, processDetection]

/-- The stored yaw survives any cycle whose frame does not fire the
OPEN-gated update: skipped frames, caught errors, no-hand frames, and
hand frames classified other than OPEN. -/
theorem cycle_keeps_yaw (s : SmootherState) (f : Frame) (h : ¬ firesYaw f) :
    (cycle s f).1.lastRotation = s.lastRotation := by
  unfold cycle
  by_cases ht : f.currentTime = s.lastVideoTime
  · simp [ht]
  · cases hr : f.result with
    | err => simp [ht, hr, processDetection]
    | noHand => simp [ht, hr, processDetection]
    | hand L =>
        have hg : ¬ gestureOf L = Gesture.OPEN := fun hg => h ⟨L, hr, hg⟩
        simp [ht, hr, processDetection, hg]

/-- The stored pitch survives any cycle whose frame does not fire the
POINTING-gated update. -/
theorem cycle_keeps_pitch (s : SmootherState) (f : Frame) (h : ¬ firesPitch f) :
    (cycle s f).1.lastPitch = s.lastPitch := by
  unfold cycle
  by_cases ht : f.currentTime = s.lastVideoTime
  · simp [ht]
  · cases hr : f.result with
    | err => simp [ht, hr, processDetection]
    | noHand => simp [ht, hr, processDetection]
    | hand L =>
        have hg : ¬ gestureOf L = Gesture.POINTING := fun hg => h ⟨L, hr, hg⟩
        simp [ht, hr, processDetection, hg]

/-- The stored yaw survives a whole run of frames none of which fires the
OPEN-gated update. -/
theorem runFrames_keeps_yaw (s : SmootherState) (fs : List Frame)
    (h : ∀ f ∈ fs, ¬ firesYaw f) :
    (runFrames s fs).1.lastRotation = s.lastRotation := by
  induction fs generalizing s with
  | nil => rfl
  | cons f fs ih =>
      show (runFrames (cycle s f).1 fs).1.lastRotation = s.lastRotation
      rw [ih _ fun g hg => h g (List.mem_cons_of_mem _ hg),
        cycle_keeps_yaw s f (h f (List.mem_cons_self _ _))]

/-- The stored pitch survives a whole run of frames none of which fires
the POINTING-gated update. -/
theorem runFrames_keeps_pitch (s : SmootherState) (fs : List Frame)
    (h : ∀ f ∈ fs, ¬ firesPitch f) :
    (runFrames s fs).1.lastPitch = s.lastPitch := by
  induction fs generalizing s with
  | nil => rfl
  | cons f fs ih =>
      show (runFrames (cycle s f).1 fs).1.lastPitch = s.lastPitch
      rw [ih _ fun g hg => h g (List.mem_cons_of_mem _ hg),
        cycle_keeps_pitch s f (h f (List.mem_cons_self _ _))]

/-- Every frame handed to the scheduler is attempted, whatever the
per-frame outcomes: errors are caught inside the cycle. -/
theorem runFrames_attempts (s : SmootherState) (fs : List Frame) :
    (runFrames s fs).2 = fs.length := by
  induction fs generalizing s with
  | nil => rfl
  | cons f fs ih =>
      show (runFrames (cycle s f).1 fs).2 + 1 = fs.length + 1
      rw [ih]

/-- The openness published for a detected hand always lies in [0,1]. -/
theorem openness_mem (L : Hand) : 0 ≤ openness L ∧ openness L ≤ 1 :=
  ⟨le_min (le_max_right _ _) (by norm_num), min_le_right _ _⟩

/-! ### Claims -/

/-- C1: the claim that the classifier decides OPEN and CLOSED by
openness thresholds is false on the code: `fistHand` has clamped openness
1 (above any ~0.8 threshold) yet is classified CLOSED, not OPEN, because
the classifier reads only the finger-extension counts. -/
theorem claim1_counterexample :
    openness fistHand > 0.8 ∧ gestureOf fistHand = Gesture.CLOSED ∧
    gestureOf fistHand ≠ Gesture.OPEN := by
  refine ⟨?_, fist_gesture, ?_⟩
  · rw [fist_openness]; norm_num
  · rw [fist_gesture]; exact fun h => Gesture.noConfusion h

/-- C1 (amended): the gesture classifier of `HandTracker.tsx` is a
priority-ordered rule evaluation in which OPEN and CLOSED are decided by
the finger-extension count: 5 or 4 extended fingers give OPEN, else 0 or
1 give CLOSED, and only otherwise are VICTORY, POINTING and NEUTRAL
considered. -/
theorem claim1_theorem : ∀ a b c d e : Bool,
    ((extendedCount ⟨a, b, c, d, e⟩ = 5 ∨ extendedCount ⟨a, b, c, d, e⟩ = 4) →
      classifyGesture ⟨a, b, c, d, e⟩ = Gesture.OPEN) ∧
    ((extendedCount ⟨a, b, c, d, e⟩ = 0 ∨ extendedCount ⟨a, b, c, d, e⟩ = 1) →
      classifyGesture ⟨a, b, c, d, e⟩ = Gesture.CLOSED) ∧
    (¬(extendedCount ⟨a, b, c, d, e⟩ = 5 ∨ extendedCount ⟨a, b, c, d, e⟩ = 4) →
      ¬(extendedCount ⟨a, b, c, d, e⟩ = 0 ∨ extendedCount ⟨a, b, c, d, e⟩ = 1) →
      (classifyGesture ⟨a, b, c, d, e⟩ = Gesture.VICTORY ∨
       classifyGesture ⟨a, b, c, d, e⟩ = Gesture.POINTING ∨
       classifyGesture ⟨a, b, c, d, e⟩ = Gesture.NEUTRAL)) := by
  decide

/-- Witness for C1 (amended): the all-extended feature vector satisfies
the OPEN rule and is classified OPEN. -/
theorem claim1_witness :
    extendedCount ⟨true, true, true, true, true⟩ = 5 ∧
    classifyGesture ⟨true, true, true, true, true⟩ = Gesture.OPEN :=
  ⟨by decide, (claim1_theorem true true true true true).1 (Or.inl (by decide))⟩

/-- C2: yaw and pitch are sticky.  Over any run of frames none of which
detects an OPEN hand, the stored yaw is unchanged; over any run none of
which detects a POINTING hand, the stored pitch is unchanged — frames
with caught errors, with no hand detected, with an unchanged timestamp
and with any other gesture all hold the last committed values.  The
OPEN → CLOSED → OPEN scenario is the instance where the run is the CLOSED
segment. -/
theorem claim2_theorem (s : SmootherState) (fs : List Frame) :
    ((∀ f ∈ fs, ¬ firesYaw f) → (runFrames s fs).1.lastRotation = s.lastRotation) ∧
    ((∀ f ∈ fs, ¬ firesPitch f) → (runFrames s fs).1.lastPitch = s.lastPitch) :=
  ⟨runFrames_keeps_yaw s fs, runFrames_keeps_pitch s fs⟩

/-- Witness for C2: a no-hand frame followed by an error frame leaves the
committed yaw 0.3 and pitch 0.4 untouched. -/
theorem claim2_witness :
    (runFrames ⟨-1, 0.3, 0.4⟩
      [⟨1, DetectResult.noHand⟩, ⟨2, DetectResult.err⟩]).1.lastRotation = (0.3 : ℝ) ∧
    (runFrames ⟨-1, 0.3, 0.4⟩
      [⟨1, DetectResult.noHand⟩, ⟨2, DetectResult.err⟩]).1.lastPitch = (0.4 : ℝ) :=
  ⟨(claim2_theorem _ _).1
      (by intro f hf; fin_cases hf <;> rintro ⟨L, hL, -⟩ <;> cases hL),
   (claim2_theorem _ _).2
      (by intro f hf; fin_cases hf <;> rintro ⟨L, hL, -⟩ <;> cases hL)⟩

/-- C3: a landmark-source error on frame N is caught: the cycle publishes
nothing, the stored yaw and pitch equal their pre-failure values, and the
scheduler still attempts every following frame (the run over N and its
successors attempts them all). -/
theorem claim3_theorem (s : SmootherState) (f : Frame) (fs : List Frame)
    (hf : f.result = DetectResult.err) :
    (cycle s f).1.lastRotation = s.lastRotation ∧
    (cycle s f).1.lastPitch = s.lastPitch ∧
    (cycle s f).2.1 = none ∧
    (runFrames s (f :: fs)).2 = fs.length + 1 := by
  refine ⟨cycle_keeps_yaw s f ?_, cycle_keeps_pitch s f ?_, ?_, ?_⟩
  · rintro ⟨L, hL, -⟩; rw [hf] at hL; cases hL
  · rintro ⟨L, hL, -⟩; rw [hf] at hL; cases hL
  · unfold cycle
    by_cases ht : f.currentTime = s.lastVideoTime
    · simp [ht]
    · simp [ht, hf, processDetection]
  · rw [runFrames_attempts]; rfl

/-- Witness for C3: an error frame at timestamp 1 preserves yaw 0.3 and
pitch 0.4, publishes nothing, and the two-frame run attempts both
frames. -/
theorem claim3_witness :
    (cycle ⟨-1, 0.3, 0.4⟩ ⟨1, DetectResult.err⟩).1.lastRotation = (0.3 : ℝ) ∧
    (cycle ⟨-1, 0.3, 0.4⟩ ⟨1, DetectResult.err⟩).1.lastPitch = (0.4 : ℝ) ∧
    (cycle ⟨-1, 0.3, 0.4⟩ ⟨1, DetectResult.err⟩).2.1 = none ∧
    (runFrames ⟨-1, 0.3, 0.4⟩
      [⟨1, DetectResult.err⟩, ⟨2, DetectResult.noHand⟩]).2 = 2 :=
  claim3_theorem ⟨-1, 0.3, 0.4⟩ ⟨1, DetectResult.err⟩ [⟨2, DetectResult.noHand⟩] rfl

/-- C4: a processed frame on which no hand is detected publishes exactly
`handDetected = false`, `gesture = NEUTRAL`, `openness = 0.5`, and the
last committed yaw and pitch, which are left unchanged. -/
theorem claim4_theorem (s : SmootherState) (f : Frame)
    (hf : f.result = DetectResult.noHand) (ht : f.currentTime ≠ s.lastVideoTime) :
    (cycle s f).2.1 =
      some ⟨false, Gesture.NEUTRAL, s.lastRotation, s.lastPitch, 0.5⟩ ∧
    (cycle s f).1.lastRotation = s.lastRotation ∧
    (cycle s f).1.lastPitch = s.lastPitch := by
  unfold cycle
  simp [ht, hf, processDetection]

/-- Witness for C4: a no-hand frame at timestamp 1 over committed yaw 0.3
and pitch 0.4. -/
theorem claim4_witness :
    (cycle ⟨-1, 0.3, 0.4⟩ ⟨1, DetectResult.noHand⟩).2.1 =
      some ⟨false, Gesture.NEUTRAL, 0.3, 0.4, 0.5⟩ ∧
    (cycle ⟨-1, 0.3, 0.4⟩ ⟨1, DetectResult.noHand⟩).1.lastRotation = (0.3 : ℝ) ∧
    (cycle ⟨-1, 0.3, 0.4⟩ ⟨1, DetectResult.noHand⟩).1.lastPitch = (0.4 : ℝ) :=
  claim4_theorem ⟨-1, 0.3, 0.4⟩ ⟨1, DetectResult.noHand⟩ rfl (by norm_num)

/-- C5: on the only-index feature vector (thumb, middle, ring, pinky not
extended) the OPEN rule (5 extended) and the CLOSED rule (0 extended) of
the `part_000` revision's classifier do not fire, and the classifier
returns POINTING.  In `HandTracker.tsx` the CLOSED rule additionally
tolerates one extended finger, so there the guard of the claim never
holds (see the C5 result notes). -/
theorem claim5_theorem :
    extendedCount ⟨false, true, false, false, false⟩ = 1 ∧
    extendedCount ⟨false, true, false, false, false⟩ ≠ 5 ∧
    extendedCount ⟨false, true, false, false, false⟩ ≠ 0 ∧
    classifyGestureV0 ⟨false, true, false, false, false⟩ = Gesture.POINTING := by
  decide

/-- C6: the computed openness is the ratio of the average fingertip
distance to the wrist-to-middle-MCP reference distance, rescaled by 2.5
and clamped to [0,1]; it always lies in [0,1], and so does the
`pinchDistance` field of everything the cycle publishes. -/
theorem claim6_theorem (L : Hand) (s : SmootherState) (f : Frame) :
    (0 ≤ openness L ∧ openness L ≤ 1) ∧
    openness L = min (max ((tipDistSum L / 4 / mcpDist L) / 2.5) 0) 1 ∧
    (∀ c, (cycle s f).2.1 = some c → 0 ≤ c.pinchDistance ∧ c.pinchDistance ≤ 1) := by
  refine ⟨openness_mem L, ?_, ?_⟩
  · rw [openness, opennessFromDists, div_div (tipDistSum L / 4) (mcpDist L) 2.5]
  · intro c hc
    unfold cycle at hc
    by_cases ht : f.currentTime = s.lastVideoTime
    · simp [ht] at hc
    · cases hr : f.result with
      | err => simp [ht, hr, processDetection] at hc
      | noHand =>
          simp [ht, hr, processDetection] at hc
          rw [← hc]; norm_num
      | hand L' =>
          simp [ht, hr, processDetection] at hc
          rw [← hc]
          exact openness_mem L'

/-- Witness for C6: the fist landmark set, whose openness is 1, together
with a no-hand frame publishing `pinchDistance = 0.5`. -/
theorem claim6_witness :
    (0 ≤ openness fistHand ∧ openness fistHand ≤ 1) ∧
    openness fistHand =
      min (max ((tipDistSum fistHand / 4 / mcpDist fistHand) / 2.5) 0) 1 ∧
    (∀ c, (cycle ⟨-1, 0.3, 0.4⟩ ⟨1, DetectResult.noHand⟩).2.1 = some c →
      0 ≤ c.pinchDistance ∧ c.pinchDistance ≤ 1) :=
  claim6_theorem fistHand ⟨-1, 0.3, 0.4⟩ ⟨1, DetectResult.noHand⟩

/-- C7: a cycle whose frame timestamp equals the previously processed
timestamp performs no inference call and publishes nothing, so two
consecutive cycles at the same timestamp invoke the landmark source at
most once. -/
theorem claim7_theorem (s : SmootherState) (t : ℝ) (r1 r2 : DetectResult) :
    (cycle (cycle s ⟨t, r1⟩).1 ⟨t, r2⟩).2.2 = false ∧
    (cycle (cycle s ⟨t, r1⟩).1 ⟨t, r2⟩).2.1 = none ∧
    (cycle s ⟨t, r1⟩).2.2.toNat +
      (cycle (cycle s ⟨t, r1⟩).1 ⟨t, r2⟩).2.2.toNat ≤ 1 := by
  have h1 : (cycle s ⟨t, r1⟩).1.lastVideoTime = t := cycle_lastVideoTime s ⟨t, r1⟩
  have h2 : cycle (cycle s ⟨t, r1⟩).1 ⟨t, r2⟩ = ((cycle s ⟨t, r1⟩).1, none, false) := by
    unfold cycle
    rw [if_pos]
    exact h1.symm
  rw [h2]
  refine ⟨rfl, rfl, ?_⟩
  cases h : (cycle s ⟨t, r1⟩).2.2 <;> simp [h]

/-- C8: on a hand frame classified OPEN, the committed and published yaw
is the wrist's horizontal position mapped by `(1 - x) * 2 - 1`, the
mirrored linear map sending [0,1] onto [-1,1] with x = 0 ↦ 1 and
x = 1 ↦ -1. -/
theorem claim8_theorem (s : SmootherState) (f : Frame) (L : Hand)
    (hf : f.result = DetectResult.hand L) (ht : f.currentTime ≠ s.lastVideoTime)
    (hg : gestureOf L = Gesture.OPEN) :
    (cycle s f).1.lastRotation = (1 - (L 0).x) * 2 - 1 ∧
    (∀ c, (cycle s f).2.1 = some c → c.rotation = (1 - (L 0).x) * 2 - 1) ∧
    (1 - (L 0).x) * 2 - 1 = 1 - 2 * (L 0).x ∧
    ((L 0).x = 0 → (1 - (L 0).x) * 2 - 1 = 1) ∧
    ((L 0).x = 1 → (1 - (L 0).x) * 2 - 1 = -1) := by
  refine ⟨?_, ?_, by ring, fun h => by rw [h]; ring, fun h => by rw [h]; ring⟩
  · unfold cycle
    simp [ht, hf, processDetection, hg]
  · intro c hc
    unfold cycle at hc
    simp [ht, hf, processDetection, hg] at hc
    rw [← hc]

/-- Witness for C8: the all-extended `openHand` (classified OPEN) at
timestamp 1 commits yaw `(1 - 0.3) * 2 - 1`. -/
theorem claim8_witness :
    (cycle ⟨-1, 0.3, 0.4⟩ ⟨1, DetectResult.hand openHand⟩).1.lastRotation =
      (1 - (openHand 0).x) * 2 - 1 ∧
    (∀ c, (cycle ⟨-1, 0.3, 0.4⟩ ⟨1, DetectResult.hand openHand⟩).2.1 = some c →
      c.rotation = (1 - (openHand 0).x) * 2 - 1) ∧
    (1 - (openHand 0).x) * 2 - 1 = 1 - 2 * (openHand 0).x ∧
    ((openHand 0).x = 0 → (1 - (openHand 0).x) * 2 - 1 = 1) ∧
    ((openHand 0).x = 1 → (1 - (openHand 0).x) * 2 - 1 = -1) :=
  claim8_theorem ⟨-1, 0.3, 0.4⟩ ⟨1, DetectResult.hand openHand⟩ openHand rfl
    (by norm_num) open_gesture

/-- C9: with the hand-size reference distance held fixed and positive,
the clamped openness is monotone non-decreasing in the fingertip
distances; a non-decreasing extension sequence yields a non-decreasing
openness sequence, and any frame whose tip-distance sum reaches the
fully-open raw ratio 2 (sum ≥ 8 × reference) has openness ≥ 0.8. -/
theorem claim9_theorem (m : ℝ) (hm : 0 < m) (s : ℕ → ℝ) (hs : Monotone s)
    (N : ℕ) (hend : 8 * m ≤ s N) :
    Monotone (fun n => opennessFromDists (s n) m) ∧
    0.8 ≤ opennessFromDists (s N) m := by
  constructor
  · intro a b hab
    dsimp only [opennessFromDists]
    have h := hs hab
    gcongr
  · have hx : (0.8 : ℝ) ≤ (s N / 4) / (m * 2.5) := by
      rw [le_div_iff₀ (by positivity)]
      linarith
    exact le_min (le_trans hx (le_max_left _ _)) (by norm_num)

/-- Witness for C9: reference distance 1 with tip-distance sums 8 + n. -/
theorem claim9_witness :
    Monotone (fun n : ℕ => opennessFromDists (8 + (n : ℝ)) 1) ∧
    0.8 ≤ opennessFromDists (8 + ((0 : ℕ) : ℝ)) 1 :=
  claim9_theorem 1 (by norm_num) (fun n => 8 + (n : ℝ))
    (fun a b hab => by simpa using Nat.cast_le.mpr hab) 0 (by norm_num)

/-- C10: the "L" shape — exactly thumb and index extended — is classified
POINTING by both the `HandTracker.tsx` classifier (its POINTING rule does
not constrain the thumb) and the `part_000` classifier (which has an
explicit index+thumb rule). -/
theorem claim10_theorem :
    classifyGesture ⟨true, true, false, false, false⟩ = Gesture.POINTING ∧
    classifyGestureV0 ⟨true, true, false, false, false⟩ = Gesture.POINTING := by
  decide

end HandPipeline
